import Mathlib

/-!
Shallow embedding of the ClockInTime application (treezio/ClockInTime).

The embedding follows the Python sources:
  * `src/clockintime/utils/time_utils.py`  — time math
  * `src/clockintime/utils/config.py`      — workday-hours configuration
  * `src/clockintime/exceptions.py`        — error taxonomy
  * `src/clockintime/api/factorial_client.py` — login, context resolution,
    calendar oracle, shift snapshot, clock-in/out writes
  * `src/clockintime/ui/menu_bar_app.py`   — the Login/Sleep/Wake handlers

Ambient effects are made explicit: `datetime.now()` becomes a parameter,
each HTTP exchange becomes a value of a response type supplied as input,
and every function that issues remote requests additionally returns the
list of requests it issued.  Python floats in the time math are modelled
by rationals (the operations and inputs involved are exact dyadic
values), `int()` truncation by `pyTrunc`, and Python string truthiness by
`pyTruthy`.
-/

deriving instance DecidableEq for Except

namespace ClockInTime

/-- Python truthiness of an optional string: `None` and `""` are falsy. -/
def pyTruthy : Option String → Bool
  | none => false
  | some s => !s.isEmpty

/-- Python `int()` applied to a rational: truncation toward zero. -/
def pyTrunc (q : ℚ) : ℤ :=
  if q < 0 then -⌊-q⌋ else ⌊q⌋

/-- Error taxonomy of `exceptions.py`, plus Python's built-in `ValueError`
(raised by `Config.set_workday_hours`). -/
inductive CIError where
  | apiError (msg : String)
  | authenticationError (msg : String)
  | configurationError (msg : String)
  | valueError (msg : String)
  deriving DecidableEq, Repr

/-- Whether an error is a `ConfigurationError`. -/
def CIError.isConfigurationError : CIError → Bool
  | .configurationError _ => true
  | _ => false

/-! ## Config (`utils/config.py`)

The in-memory settings dictionary is an association list; `Config.set`
updates the key and persists (persistence is outside the model). -/

/-- Dictionary update: `self._settings[key] = value`. -/
def dictSet (settings : List (String × Int)) (key : String) (value : Int) :
    List (String × Int) :=
  (key, value) :: settings.filter (fun kv => kv.1 ≠ key)

/-- Dictionary lookup. -/
def dictGet (settings : List (String × Int)) (key : String) : Option Int :=
  (settings.find? (fun kv => kv.1 == key)).map (·.2)

/-- `Config.set_workday_hours`: rejects hours outside `[1, 24]` with a
`ValueError` before storing; otherwise stores the value. -/
def set_workday_hours (settings : List (String × Int)) (hours : Int) :
    Except CIError (List (String × Int)) :=
  if hours < 1 || hours > 24 then
    .error (.valueError "Workday hours must be between 1 and 24")
  else
    .ok (dictSet settings "workday_hours" hours)

/-! ## Time math (`utils/time_utils.py`) -/

/-- Split a character list on a separator (the behaviour of
`String.splitOn` with a one-character separator). -/
def splitCharsOn (sep : Char) : List Char → List (List Char)
  | [] => [[]]
  | c :: cs =>
    if c = sep then [] :: splitCharsOn sep cs
    else
      match splitCharsOn sep cs with
      | r :: rs => (c :: r) :: rs
      | [] => [[c]]

/-- Parse a nonempty run of decimal digits. -/
def digitsToNat : List Char → Option Nat
  | [] => none
  | cs =>
    cs.foldl
      (fun acc c =>
        acc.bind fun n => if c.isDigit then some (n * 10 + (c.toNat - 48)) else none)
      (some 0)

/-- `datetime.strptime(s, "%H:%M")`, reduced to the fields the code uses:
hour and minute, validated to be in range. -/
def parseHM (s : String) : Option (Nat × Nat) :=
  match splitCharsOn ':' s.data with
  | [hs, ms] =>
    match digitsToNat hs, digitsToNat ms with
    | some h, some m => if h < 24 && m < 60 then some (h, m) else none
    | _, _ => none
  | _ => none

/-- `calculate_worked_hours(clock_in)` with the ambient current time made
explicit as `(now_h, now_m)`; `none` models a `strptime` parse failure. -/
def calculate_worked_hours (clock_in : String) (now_h now_m : Nat) : Option ℚ :=
  (parseHM clock_in).map fun p =>
    (((now_h : ℚ) * 60 + now_m) - ((p.1 : ℚ) * 60 + p.2)) / 60

/-- `calculate_remaining_hours(clock_in, workday_hours)` at current time
`(now_h, now_m)`. -/
def calculate_remaining_hours (clock_in : String) (workday_hours : ℤ)
    (now_h now_m : Nat) : Option ℚ :=
  (calculate_worked_hours clock_in now_h now_m).map
    fun worked => (workday_hours : ℚ) - worked

/-- `format_remaining_time(hours)`: `h = int(hours)`,
`m = int((hours - h) * 60)`. -/
def format_remaining_time (hours : ℚ) : ℤ × ℤ :=
  let h := pyTrunc hours
  (h, pyTrunc ((hours - (h : ℚ)) * 60))

/-- `format_time_display(hours, minutes)`: `"{hours}h {minutes}m"` when
`hours > 0`, else `"{minutes}m"`. -/
def format_time_display (hours minutes : ℤ) : String :=
  if hours > 0 then
    toString hours ++ "h " ++ toString minutes ++ "m"
  else
    toString minutes ++ "m"

/-! ## Pattern extraction (`factorial_client.py` regexes)

`re.search` with a pattern of the shape `LITERAL([^c]+)TAIL` is modelled
by a left-to-right scan: at each start position the literal head must
match, followed by a nonempty run of characters different from `c`,
followed by the literal tail. -/

/-- Strip a literal head from a character list; `none` if it does not
start with it. -/
def dropLit : List Char → List Char → Option (List Char)
  | [], rest => some rest
  | _ :: _, [] => none
  | p :: ps, c :: cs => if p = c then dropLit ps cs else none

/-- Try the pattern `head ([^stop]+) tail` at the current position,
returning the captured group. -/
def matchAt (head : List Char) (stop : Char) (tail : List Char)
    (cs : List Char) : Option (List Char) :=
  match dropLit head cs with
  | none => none
  | some rest =>
    let grp := rest.takeWhile (fun c => c ≠ stop)
    if grp.isEmpty then none
    else
      match dropLit tail (rest.drop grp.length) with
      | some _ => some grp
      | none => none

/-- `re.search`: try the pattern at each start position, leftmost match
wins. -/
def reSearch (head : List Char) (stop : Char) (tail : List Char) :
    List Char → Option (List Char)
  | [] => matchAt head stop tail []
  | c :: cs =>
    match matchAt head stop tail (c :: cs) with
    | some g => some g
    | none => reSearch head stop tail cs

/-- The CSRF pattern of `login`:
`<meta name="csrf-token" content="([^"]+)"`. -/
def extractCsrf (body : String) : Option String :=
  (reSearch "<meta name=\"csrf-token\" content=\"".data '"' ['"'] body.data).map
    List.asString

/-- The login-failure banner pattern of `login`:
`<div class="flash flash--wrong">([^<]+)</div>`. -/
def extractFlashError (body : String) : Option String :=
  (reSearch "<div class=\"flash flash--wrong\">".data '<' "</div>".data
    body.data).map List.asString

/-! ## Client state and the remote exchanges -/

/-- `FactorialClient` mutable state used by the attendance operations:
the `_logged_in` flag and the Context `{employee_id, period_id}`. -/
structure ClientState where
  loggedIn : Bool
  employee_id : Option Int
  period_id : Option Int
  deriving DecidableEq, Repr

/-- The fresh client right after `__init__`. -/
def initialState : ClientState :=
  { loggedIn := false, employee_id := none, period_id := none }

/-- The remote requests a client function can issue.  `getCalendar` and
`getShifts` record the employee id sent as parameter. -/
inductive Request where
  | getSignIn
  | postSignIn
  | getPeriods
  | getCalendar (employee_id : Option Int)
  | getShifts (employee_id : Option Int)
  | postClockIn
  | postClockOut
  deriving DecidableEq, Repr

/-- An HTML-page exchange: either a response with status and body, or a
transport-level `requests.RequestException`. -/
inductive PageResp where
  | ok (status : Nat) (body : String)
  | netError (msg : String)
  deriving DecidableEq, Repr

/-- One element of the `/attendance/periods` JSON array.  Fields are
optional because the code reads them with `dict.get`. -/
structure Period where
  year : Option Int
  month : Option Int
  id : Option Int
  employee_id : Option Int
  deriving DecidableEq, Repr

/-- The periods exchange: parsed JSON array or transport failure. -/
inductive PeriodsResp where
  | ok (status : Nat) (periods : List Period)
  | netError (msg : String)
  deriving DecidableEq, Repr

/-- The message of `_ensure_logged_in`'s `AuthenticationError`. -/
def notLoggedInMsg : String := "Not logged in. Call login() first."

/-- The `requests` message for a `raise_for_status` failure, wrapped by
whichever `except` clause catches it. -/
def httpErrMsg (status : Nat) : String :=
  "HTTP error " ++ toString status

/-! ## `login` and `_set_period_id` -/

/-- The three exchanges `login` can perform, in order. -/
structure LoginWorld where
  signInGet : PageResp
  signInPost : PageResp
  periods : PeriodsResp
  deriving DecidableEq, Repr

/-- What `login` leaves behind: the client state after the call, the
remote requests issued, and the outcome (`ok true` or a raised error). -/
structure LoginResult where
  state : ClientState
  requests : List Request
  result : Except CIError Bool
  deriving DecidableEq, Repr

/-- `_set_period_id`, run from state `st` (already `_logged_in = True`):
fetches the periods feed for `(year, month)`, scans for the matching
entry, and stores `employee_id` and `period_id`; no match raises
`APIError`. -/
def set_period_id (st : ClientState) (year month : Int)
    (resp : PeriodsResp) : ClientState × Except CIError Unit :=
  match resp with
  | .netError e =>
    (st, .error (.apiError ("Error fetching period data: " ++ e)))
  | .ok status periods =>
    if status ≥ 400 then
      (st, .error (.apiError ("Error fetching period data: " ++ httpErrMsg status)))
    else
      match periods.find? (fun p => p.year == some year && p.month == some month) with
      | some p =>
        ({ st with employee_id := p.employee_id, period_id := p.id }, .ok ())
      | none =>
        (st, .error (.apiError
          ("Could not find period for " ++ toString year ++ "/" ++ toString month)))

/-- `login`, starting from the fresh client: GET the sign-in page,
extract the CSRF token, POST the credentials, check the failure banner,
set `_logged_in = True`, then resolve the Context via
`_set_period_id`. -/
def login (w : LoginWorld) (year month : Int) : LoginResult :=
  match w.signInGet with
  | .netError e =>
    ⟨initialState, [.getSignIn], .error (.apiError ("Network error during login: " ++ e))⟩
  | .ok status body =>
    if status ≥ 400 then
      ⟨initialState, [.getSignIn],
        .error (.apiError ("Network error during login: " ++ httpErrMsg status))⟩
    else
      match extractCsrf body with
      | none =>
        ⟨initialState, [.getSignIn],
          .error (.authenticationError "Could not extract CSRF token")⟩
      | some _ =>
        match w.signInPost with
        | .netError e =>
          ⟨initialState, [.getSignIn, .postSignIn],
            .error (.apiError ("Network error during login: " ++ e))⟩
        | .ok status2 body2 =>
          if status2 ≥ 400 then
            ⟨initialState, [.getSignIn, .postSignIn],
              .error (.apiError ("Network error during login: " ++ httpErrMsg status2))⟩
          else
            match extractFlashError body2 with
            | some msg =>
              ⟨initialState, [.getSignIn, .postSignIn],
                .error (.authenticationError ("Login failed: " ++ msg.trim))⟩
            | none =>
              let st1 := { initialState with loggedIn := true }
              let pr := set_period_id st1 year month w.periods
              match pr.2 with
              | .ok _ =>
                ⟨pr.1, [.getSignIn, .postSignIn, .getPeriods], .ok true⟩
              | .error e =>
                ⟨pr.1, [.getSignIn, .postSignIn, .getPeriods], .error e⟩

/-! ## Calendar oracle (`should_work_today`) -/

/-- A calendar date, as parsed by `datetime.strptime(date_str, "%Y-%m-%d")`. -/
structure Date where
  year : Nat
  month : Nat
  day : Nat
  deriving DecidableEq, Repr

/-- English weekday names, indexed with Sunday = 0, as produced by
`strftime("%A")` in the C locale. -/
def dayNames : List String :=
  ["Sunday", "Monday", "Tuesday", "Wednesday", "Thursday", "Friday", "Saturday"]

/-- Month offsets of Sakamoto's weekday algorithm. -/
def sakamoto : List Nat := [0, 3, 2, 5, 0, 3, 5, 1, 4, 6, 2, 4]

/-- Day of week of a Gregorian date, Sunday = 0. -/
def dayOfWeekIdx (dt : Date) : Nat :=
  let y := if dt.month < 3 then dt.year - 1 else dt.year
  (y + y / 4 + y / 400 + (sakamoto.get? (dt.month - 1)).getD 0 + dt.day - y / 100) % 7

/-- `datetime.strptime(date_str, "%Y-%m-%d").strftime("%A")`. -/
def dayName (dt : Date) : String :=
  (dayNames.get? (dayOfWeekIdx dt)).getD ""

/-- One element of the `/attendance/calendar` JSON array.  `leave_name`
is `none` when the key is absent (the code reads it with
`dict.get("leave_name", "Leave")`); `date` is `none` when the date string
is absent or empty. -/
structure CalendarDay where
  day : Nat
  is_leave : Bool
  leave_name : Option String
  is_laborable : Bool
  date : Option Date
  deriving DecidableEq, Repr

/-- The calendar exchange: parsed JSON array or transport failure. -/
inductive CalResp where
  | ok (status : Nat) (days : List CalendarDay)
  | netError (msg : String)
  deriving DecidableEq, Repr

/-- The decision core of `should_work_today` (lines 253–274): scan the
month's days for today's day-of-month; first match decides by the
`is_leave` / `is_laborable` chain, no match falls back to a working
day. -/
def decideWorkToday (days : List CalendarDay) (today : Nat) : Bool × String :=
  match days.find? (fun d => d.day == today) with
  | some entry =>
    if entry.is_leave then
      (false, "Leave day: " ++ entry.leave_name.getD "Leave")
    else if !entry.is_laborable then
      match entry.date with
      | some dt => (false, "Non-working day: " ++ dayName dt)
      | none => (false, "Non-working day (weekend or holiday)")
    else
      (true, "Working day")
  | none => (true, "Working day (assumed)")

/-- `should_work_today`: assert the session (`_ensure_logged_in`), issue
the calendar GET with `self.employee_id`, then decide. -/
def should_work_today (st : ClientState) (today : Nat) (resp : CalResp) :
    List Request × Except CIError (Bool × String) :=
  if !st.loggedIn then
    ([], .error (.authenticationError notLoggedInMsg))
  else
    ([.getCalendar st.employee_id],
      match resp with
      | .netError e => .error (.apiError ("Error fetching calendar: " ++ e))
      | .ok status days =>
        if status ≥ 400 then
          .error (.apiError ("Error fetching calendar: " ++ httpErrMsg status))
        else
          .ok (decideWorkToday days today))

/-! ## Shift snapshot (`get_today_status`) -/

/-- One element of the `/attendance/shifts` JSON array. -/
structure ShiftRec where
  day : Nat
  clock_in : Option String
  clock_out : Option String
  deriving DecidableEq, Repr

/-- The shifts exchange: parsed JSON array or transport failure. -/
inductive ShiftsResp where
  | ok (status : Nat) (shifts : List ShiftRec)
  | netError (msg : String)
  deriving DecidableEq, Repr

/-- The snapshot returned by `get_today_status`:
`(has_shift, clock_in, clock_out)`. -/
abbrev Snapshot := Bool × Option String × Option String

/-- `get_today_status`: assert the session, issue the shifts GET with
`self.employee_id`, scan for today's record. -/
def get_today_status (st : ClientState) (today : Nat) (resp : ShiftsResp) :
    List Request × Except CIError Snapshot :=
  if !st.loggedIn then
    ([], .error (.authenticationError notLoggedInMsg))
  else
    ([.getShifts st.employee_id],
      match resp with
      | .netError e => .error (.apiError ("Error fetching status: " ++ e))
      | .ok status shifts =>
        if status ≥ 400 then
          .error (.apiError ("Error fetching status: " ++ httpErrMsg status))
        else
          match shifts.find? (fun s => s.day == today) with
          | some s => .ok (true, s.clock_in, s.clock_out)
          | none => .ok (false, none, none))

/-! ## Clock writes (`clock_in_now`, `clock_out_now`) -/

/-- `clock_in_now`: assert the session, POST to the clock-in endpoint;
`True` on a 200/201 status, `False` on any other status, `APIError` on a
transport failure (the body is only logged). -/
def clock_in_now (st : ClientState) (resp : PageResp) :
    List Request × Except CIError Bool :=
  if !st.loggedIn then
    ([], .error (.authenticationError notLoggedInMsg))
  else
    ([.postClockIn],
      match resp with
      | .ok status _ => .ok (status == 200 || status == 201)
      | .netError e => .error (.apiError ("Error during clock in: " ++ e)))

/-- `clock_out_now`: same shape as `clock_in_now` against the clock-out
endpoint. -/
def clock_out_now (st : ClientState) (resp : PageResp) :
    List Request × Except CIError Bool :=
  if !st.loggedIn then
    ([], .error (.authenticationError notLoggedInMsg))
  else
    ([.postClockOut],
      match resp with
      | .ok status _ => .ok (status == 200 || status == 201)
      | .netError e => .error (.apiError ("Error during clock out: " ++ e)))

/-! ## Attendance Reconciler (`menu_bar_app.py` handlers)

Each handler is modelled on its success path: the eligibility answer of
`should_work_today` and the fresh snapshot of `get_today_status` are the
handler's inputs (both are re-read from the remote service at handling
time in the source), and the handler's output is the list of write calls
it issues. -/

/-- A write call issued by a handler. -/
inductive WriteCall where
  | clockIn
  | clockOut
  deriving DecidableEq, Repr

/-- `handle_login` (lines 287–311): on an eligible day it clocks in; it
never reads the shift snapshot. -/
def handle_login (should_work : Bool × String) : List WriteCall :=
  if !should_work.1 then [] else [.clockIn]

/-- `handle_sleep` (lines 313–336): reads the fresh snapshot and clocks
out unless there is no shift or the shift already has a (truthy)
`clock_out`. -/
def handle_sleep (snap : Snapshot) : List WriteCall :=
  if !snap.1 || pyTruthy snap.2.2 then [] else [.clockOut]

/-- `handle_wake` (lines 338–369): on an eligible day, reads the fresh
snapshot and skips only when a shift exists without a (truthy)
`clock_out`; otherwise it clocks in. -/
def handle_wake (should_work : Bool × String) (snap : Snapshot) : List WriteCall :=
  if !should_work.1 then []
  else if snap.1 && !pyTruthy snap.2.2 then []
  else [.clockIn]

/-- The spec's per-day shift states, derived from a snapshot with the
same truthiness test the handlers use. -/
inductive ShiftCls where
  | noShift
  | openShift
  | closedShift
  deriving DecidableEq, Repr

/-- Classify a snapshot. -/
def classify (snap : Snapshot) : ShiftCls :=
  if !snap.1 then .noShift
  else if pyTruthy snap.2.2 then .closedShift
  else .openShift

/-! ### Operational layer for signal sequences

The remote service is reduced to today's shift record; every issued
write succeeds (the success-path semantics of the spec's transition
table, NoShift→OpenShift and OpenShift→ClosedShift).  The eligibility
answer is fixed to a working day. -/

/-- The OS lifecycle signals. -/
inductive Signal where
  | login
  | sleep
  | wake
  deriving DecidableEq, Repr

/-- Today's server-side shift record: `none` or `(clock_in, clock_out)`. -/
structure Server where
  shift : Option (Option String × Option String)
  deriving DecidableEq, Repr

/-- The snapshot `get_today_status` derives from the server. -/
def serverStatus (srv : Server) : Snapshot :=
  match srv.shift with
  | none => (false, none, none)
  | some (ci, co) => (true, ci, co)

/-- Apply one successful write to the server: a clock-in opens today's
shift at the current time, a clock-out closes it. -/
def applyCall (srv : Server) : WriteCall → Server
  | .clockIn => ⟨some (some "09:00", none)⟩
  | .clockOut =>
    match srv.shift with
    | some (ci, _) => ⟨some (ci, some "17:00")⟩
    | none => srv

/-- Deliver one signal on an eligible day: run the handler on the fresh
snapshot and apply its writes. -/
def signalStep (srv : Server) : Signal → Server × List WriteCall
  | .login =>
    let calls := handle_login (true, "Working day")
    (calls.foldl applyCall srv, calls)
  | .sleep =>
    let calls := handle_sleep (serverStatus srv)
    (calls.foldl applyCall srv, calls)
  | .wake =>
    let calls := handle_wake (true, "Working day") (serverStatus srv)
    (calls.foldl applyCall srv, calls)

/-- Number of clock-in calls in a list of writes. -/
def countClockIns (calls : List WriteCall) : Nat :=
  (calls.filter (fun c => c == WriteCall.clockIn)).length

/-- Deliver a sequence of signals on an eligible day, counting the
clock-in calls issued. -/
def run (srv : Server) : List Signal → Server × Nat
  | [] => (srv, 0)
  | sg :: rest =>
    let step := signalStep srv sg
    let tail := run step.1 rest
    (tail.1, countClockIns step.2 + tail.2)

/-- Whether an `Except` result of `set_workday_hours` is a raised
`ConfigurationError`. -/
def raisedConfigurationError : Except CIError (List (String × Int)) → Bool
  | .error e => e.isConfigurationError
  | .ok _ => false

/-! ## Theorems -/

/-- C8 counterexample: `set_workday_hours` rejects `0`, but the raised
error is Python's built-in `ValueError`, not `ConfigurationError` as the
claim states. -/
theorem c8_out_of_range_raises_value_error :
    set_workday_hours [] 0 =
      .error (.valueError "Workday hours must be between 1 and 24") ∧
    raisedConfigurationError (set_workday_hours [] 0) = false := by
  constructor <;> rfl

/-- C8 (amended): for every integer `hours` outside `[1, 24]`, setting
the workday-hours configuration fails with a `ValueError` (not a
`ConfigurationError`) and stores nothing; for every `hours` within
`[1, 24]` the value is stored. -/
theorem c8_workday_hours_validation (settings : List (String × Int)) (hours : Int) :
    ((hours < 1 ∨ hours > 24) →
      set_workday_hours settings hours =
        .error (.valueError "Workday hours must be between 1 and 24")) ∧
    (1 ≤ hours → hours ≤ 24 →
      set_workday_hours settings hours =
        .ok (dictSet settings "workday_hours" hours) ∧
      dictGet (dictSet settings "workday_hours" hours) "workday_hours" = some hours) := by
  constructor
  · intro h
    rcases h with h | h <;> simp [set_workday_hours, h]
  · intro h1 h2
    refine ⟨?_, ?_⟩
    · simp [set_workday_hours, not_lt.mpr h1, not_lt.mpr h2]
    · simp [dictGet, dictSet]

/-- C8 witness: `0` is rejected with a `ValueError`; `8` is stored and
readable back. -/
theorem c8_workday_hours_validation_witness :
    set_workday_hours [] 0 =
      .error (.valueError "Workday hours must be between 1 and 24") ∧
    (set_workday_hours [] 8 = .ok (dictSet [] "workday_hours" 8) ∧
      dictGet (dictSet [] "workday_hours" 8) "workday_hours" = some 8) :=
  ⟨(c8_workday_hours_validation [] 0).1 (Or.inl (by decide)),
    (c8_workday_hours_validation [] 8).2 (by decide) (by decide)⟩

/-- C9: the time-math functions reproduce the spec's vectors:
`calculate_remaining_hours("09:00", 8)` returns `8.0` at `09:00`, `0.0`
at `17:00` and `-1.5` at `18:30`; `format_remaining_time(6.25)` is
`(6, 15)`; `format_time_display(0, 45)` is `"45m"` and
`format_time_display(6, 15)` is `"6h 15m"`. -/
theorem c9_time_math_vectors :
    calculate_remaining_hours "09:00" 8 9 0 = some 8 ∧
    calculate_remaining_hours "09:00" 8 17 0 = some 0 ∧
    calculate_remaining_hours "09:00" 8 18 30 = some (-3/2 : ℚ) ∧
    format_remaining_time (25/4 : ℚ) = (6, 15) ∧
    format_time_display 0 45 = "45m" ∧
    format_time_display 6 15 = "6h 15m" := by
  have h9 : parseHM "09:00" = some (9, 0) := by decide
  refine ⟨?_, ?_, ?_, ?_, by decide, by decide⟩
  · norm_num [calculate_remaining_hours, calculate_worked_hours, h9]
  · norm_num [calculate_remaining_hours, calculate_worked_hours, h9]
  · norm_num [calculate_remaining_hours, calculate_worked_hours, h9]
  · norm_num [format_remaining_time, pyTrunc]

/-- C10: for every `hours ≤ 0` (overtime included) the display drops the
hours component and shows only `"{minutes}m"`; in particular
`format_remaining_time(-1.5)` is `(-1, -30)` and
`format_time_display(-1, -30)` is `"-30m"`. -/
theorem c10_nonpositive_hours_display :
    (∀ hours minutes : ℤ, hours ≤ 0 →
      format_time_display hours minutes = toString minutes ++ "m") ∧
    format_remaining_time (-3/2 : ℚ) = (-1, -30) ∧
    format_time_display (-1) (-30) = "-30m" := by
  refine ⟨?_, by norm_num [format_remaining_time, pyTrunc], by decide⟩
  intro hours minutes h
  simp [format_time_display, not_lt.mpr h]

/-- C10 witness: at `hours = -1, minutes = -30` the display is
`"-30m"`. -/
theorem c10_nonpositive_hours_display_witness :
    format_time_display (-1) (-30) = toString (-30 : ℤ) ++ "m" :=
  c10_nonpositive_hours_display.1 (-1) (-30) (by decide)

/-- C2 counterexample: on an eligible day, a Wake whose fresh snapshot
is a closed shift (a truthy `clock_out`) issues a `clock_in_now` call,
against the claim that a ClosedShift state produces no write. -/
theorem c2_wake_clocks_in_on_closed_shift :
    classify (true, some "09:00", some "17:00") = ShiftCls.closedShift ∧
    handle_wake (true, "Working day") (true, some "09:00", some "17:00") =
      [WriteCall.clockIn] := by
  constructor <;> rfl

/-- C2 (amended): on every Wake signal on an eligible day, the handler
issues a `clock_in_now` call exactly when the freshly recomputed state
is NoShift or ClosedShift; only when the state is OpenShift does it
perform no write. -/
theorem c2_wake_clock_in_unless_open (reason : String) (snap : Snapshot) :
    (classify snap = ShiftCls.openShift → handle_wake (true, reason) snap = []) ∧
    (classify snap ≠ ShiftCls.openShift →
      handle_wake (true, reason) snap = [WriteCall.clockIn]) := by
  obtain ⟨has, ci, co⟩ := snap
  cases has <;> cases hco : pyTruthy co <;>
    simp [classify, handle_wake, hco]

/-- C2 witness: an open shift suppresses the wake clock-in; an empty
snapshot triggers it. -/
theorem c2_wake_clock_in_unless_open_witness :
    handle_wake (true, "Working day") (true, some "09:00", none) = [] ∧
    handle_wake (true, "Working day") (false, none, none) = [WriteCall.clockIn] :=
  ⟨(c2_wake_clock_in_unless_open "Working day" (true, some "09:00", none)).1 (by decide),
    (c2_wake_clock_in_unless_open "Working day" (false, none, none)).2 (by decide)⟩

/-- C3: a Sleep signal issues a `clock_out_now` call only when the fresh
snapshot shows an open shift; with no shift for today, or a shift that
already has a clock-out, zero `clock_out_now` calls are issued. -/
theorem c3_sleep_clock_out_only_when_open (snap : Snapshot) :
    (classify snap ≠ ShiftCls.openShift → handle_sleep snap = []) ∧
    (handle_sleep snap ≠ [] → classify snap = ShiftCls.openShift) := by
  obtain ⟨has, ci, co⟩ := snap
  cases has <;> cases hco : pyTruthy co <;>
    simp [classify, handle_sleep, hco]

/-- C3 witness: with no shift for today, Sleep issues no write. -/
theorem c3_sleep_clock_out_only_when_open_witness :
    handle_sleep (false, none, none) = [] :=
  (c3_sleep_clock_out_only_when_open (false, none, none)).1 (by decide)

/-- C5: for a logged-in client, `clock_in_now` and `clock_out_now`
return `True` exactly on a 200/201 status, return `False` on any other
status without raising, and raise `APIError` exactly on a
transport-level failure. -/
theorem c5_clock_write_status_discipline (st : ClientState)
    (h : st.loggedIn = true) (status : Nat) (body msg : String) :
    ((clock_in_now st (.ok status body)).2 = .ok true ↔ status = 200 ∨ status = 201) ∧
    ((clock_out_now st (.ok status body)).2 = .ok true ↔ status = 200 ∨ status = 201) ∧
    (¬(status = 200 ∨ status = 201) →
      (clock_in_now st (.ok status body)).2 = .ok false ∧
      (clock_out_now st (.ok status body)).2 = .ok false) ∧
    (clock_in_now st (.netError msg)).2 =
      .error (.apiError ("Error during clock in: " ++ msg)) ∧
    (clock_out_now st (.netError msg)).2 =
      .error (.apiError ("Error during clock out: " ++ msg)) := by
  simp [clock_in_now, clock_out_now, h]

/-- C5 witness: status `201` yields `True`; status `409` yields `False`;
a transport error raises `APIError`, for both write endpoints. -/
theorem c5_clock_write_status_discipline_witness :
    ((clock_in_now { loggedIn := true, employee_id := some 7, period_id := some 42 }
        (.ok 201 "")).2 = .ok true ↔ (201 : Nat) = 200 ∨ (201 : Nat) = 201) ∧
    ((clock_out_now { loggedIn := true, employee_id := some 7, period_id := some 42 }
        (.ok 201 "")).2 = .ok true ↔ (201 : Nat) = 200 ∨ (201 : Nat) = 201) ∧
    (¬((201 : Nat) = 200 ∨ (201 : Nat) = 201) →
      (clock_in_now { loggedIn := true, employee_id := some 7, period_id := some 42 }
        (.ok 201 "")).2 = .ok false ∧
      (clock_out_now { loggedIn := true, employee_id := some 7, period_id := some 42 }
        (.ok 201 "")).2 = .ok false) ∧
    (clock_in_now { loggedIn := true, employee_id := some 7, period_id := some 42 }
        (.netError "timeout")).2 =
      .error (.apiError ("Error during clock in: " ++ "timeout")) ∧
    (clock_out_now { loggedIn := true, employee_id := some 7, period_id := some 42 }
        (.netError "timeout")).2 =
      .error (.apiError ("Error during clock out: " ++ "timeout")) :=
  c5_clock_write_status_discipline
    { loggedIn := true, employee_id := some 7, period_id := some 42 } rfl 201 "" "timeout"

/-- C6 (amended): every attendance read or write call fails fast with
`AuthenticationError` and issues no remote request exactly while the
`_logged_in` flag is unset; the guard checks only that flag, so a login
whose Context resolution failed (which leaves the flag set) does not
make later calls fail fast. -/
theorem c6_fail_fast_iff_logged_in_flag (st : ClientState)
    (h : st.loggedIn = false) (today : Nat) (cal : CalResp) (sh : ShiftsResp)
    (w1 w2 : PageResp) :
    should_work_today st today cal =
      ([], .error (.authenticationError notLoggedInMsg)) ∧
    get_today_status st today sh =
      ([], .error (.authenticationError notLoggedInMsg)) ∧
    clock_in_now st w1 = ([], .error (.authenticationError notLoggedInMsg)) ∧
    clock_out_now st w2 = ([], .error (.authenticationError notLoggedInMsg)) := by
  simp [should_work_today, get_today_status, clock_in_now, clock_out_now, h]

/-- C6 witness: the fresh client is rejected by every attendance
operation. -/
theorem c6_fail_fast_iff_logged_in_flag_witness :
    should_work_today initialState 12 (.ok 200 []) =
      ([], .error (.authenticationError notLoggedInMsg)) ∧
    get_today_status initialState 12 (.ok 200 []) =
      ([], .error (.authenticationError notLoggedInMsg)) ∧
    clock_in_now initialState (.ok 200 "") =
      ([], .error (.authenticationError notLoggedInMsg)) ∧
    clock_out_now initialState (.ok 200 "") =
      ([], .error (.authenticationError notLoggedInMsg)) :=
  c6_fail_fast_iff_logged_in_flag initialState rfl 12 (.ok 200 []) (.ok 200 [])
    (.ok 200 "") (.ok 200 "")

/-- A login world whose credential phase succeeds but whose periods feed
has no entry for the current month, so Context resolution fails. -/
def contextFailWorld : LoginWorld :=
  { signInGet := .ok 200 "<meta name=\"csrf-token\" content=\"tok\">"
    signInPost := .ok 200 ""
    periods := .ok 200 [] }

/-- C6 counterexample: after a login whose Context resolution failed
(`APIError`, no matching period), the `_logged_in` flag is already set,
and `should_work_today` does not fail fast: it executes its calendar
request with a null `employee_id`. -/
theorem c6_remote_call_with_null_context :
    (login contextFailWorld 2025 10).result =
      .error (.apiError "Could not find period for 2025/10") ∧
    (login contextFailWorld 2025 10).state =
      { loggedIn := true, employee_id := none, period_id := none } ∧
    should_work_today (login contextFailWorld 2025 10).state 12 (.ok 200 []) =
      ([.getCalendar none], .ok (true, "Working day (assumed)")) := by
  refine ⟨?_, ?_, ?_⟩ <;> rfl

/-- C7: when the sign-in page lacks the anti-forgery token pattern,
`login` raises `AuthenticationError`, issues no credential POST, and
leaves the client not logged in. -/
theorem c7_missing_csrf_token_no_post (w : LoginWorld) (year month : Int)
    (status : Nat) (body : String) (hget : w.signInGet = .ok status body)
    (hstatus : status < 400) (hcsrf : extractCsrf body = none) :
    login w year month =
      { state := initialState
        requests := [Request.getSignIn]
        result := .error (.authenticationError "Could not extract CSRF token") } := by
  have h4 : ¬ status ≥ 400 := by omega
  simp [login, hget, h4, hcsrf]

/-- C7 witness: an empty sign-in page has no token; only the initial GET
is issued. -/
theorem c7_missing_csrf_token_no_post_witness :
    login { signInGet := .ok 200 "", signInPost := .ok 200 "", periods := .ok 200 [] }
        2025 10 =
      { state := initialState
        requests := [Request.getSignIn]
        result := .error (.authenticationError "Could not extract CSRF token") } :=
  c7_missing_csrf_token_no_post _ 2025 10 200 "" rfl (by decide) (by decide)

/-- Helper: a wake-only signal sequence delivered while today's shift is
open (a shift record with a non-truthy `clock_out`) issues no clock-in
calls. -/
theorem run_wake_from_open (ci co : Option String) (hco : pyTruthy co = false)
    (sigs : List Signal) (h : ∀ s ∈ sigs, s = Signal.wake) :
    (run ⟨some (ci, co)⟩ sigs).2 = 0 := by
  induction sigs with
  | nil => rfl
  | cons s rest ih =>
    have hs : s = Signal.wake := h s (List.mem_cons_self s rest)
    subst hs
    have hstep : signalStep ⟨some (ci, co)⟩ Signal.wake = (⟨some (ci, co)⟩, []) := by
      simp [signalStep, serverStatus, handle_wake, hco]
    simp only [run, hstep, countClockIns, List.filter_nil, List.length_nil,
      Nat.zero_add]
    exact ih fun s hs => h s (List.mem_cons_of_mem _ hs)

/-- C1 counterexample: a Login delivered while the fresh shift snapshot
shows an open shift for today still issues a `clock_in_now` call —
`handle_login` never reads the shift snapshot. -/
theorem c1_login_ignores_open_shift :
    classify (serverStatus ⟨some (some "09:00", none)⟩) = ShiftCls.openShift ∧
    (signalStep ⟨some (some "09:00", none)⟩ Signal.login).2 = [WriteCall.clockIn] := by
  constructor <;> rfl

/-- C1 (amended): for every delivery of a Wake signal whose fresh shift
snapshot shows an open shift for today, no `clock_in_now` call is
issued; consequently, for every sequence of Wake signals on an eligible
day starting with no prior shift, at most one `clock_in_now` call is
issued overall.  (Login, by contrast, issues a `clock_in_now` call on
every eligible delivery regardless of the snapshot, so sequences
containing Login can clock in repeatedly.) -/
theorem c1_wake_idempotent_clock_in :
    (∀ srv : Server, classify (serverStatus srv) = ShiftCls.openShift →
      (signalStep srv Signal.wake).2 = []) ∧
    (∀ sigs : List Signal, (∀ s ∈ sigs, s = Signal.wake) →
      (run ⟨none⟩ sigs).2 ≤ 1) := by
  constructor
  · intro srv hcls
    obtain ⟨shift⟩ := srv
    match shift with
    | none => simp [serverStatus, classify] at hcls
    | some (ci, co) =>
      cases hco : pyTruthy co with
      | true => simp [serverStatus, classify, hco] at hcls
      | false => simp [signalStep, serverStatus, handle_wake, hco]
  · intro sigs h
    match sigs with
    | [] => decide
    | s :: rest =>
      have hs : s = Signal.wake := h s (List.mem_cons_self s rest)
      subst hs
      have hstep : signalStep ⟨none⟩ Signal.wake =
          (⟨some (some "09:00", none)⟩, [WriteCall.clockIn]) := by rfl
      have hrest : (run ⟨some (some "09:00", none)⟩ rest).2 = 0 :=
        run_wake_from_open (some "09:00") none rfl rest
          fun s hs => h s (List.mem_cons_of_mem _ hs)
      simp [run, hstep, hrest, countClockIns]

/-- C1 witness: a Wake on an open shift issues nothing, and a double
Wake from no prior shift clocks in at most once. -/
theorem c1_wake_idempotent_clock_in_witness :
    (signalStep ⟨some (some "09:00", none)⟩ Signal.wake).2 = [] ∧
    (run ⟨none⟩ [Signal.wake, Signal.wake]).2 ≤ 1 :=
  ⟨c1_wake_idempotent_clock_in.1 ⟨some (some "09:00", none)⟩ (by decide),
    c1_wake_idempotent_clock_in.2 [Signal.wake, Signal.wake] (by decide)⟩

/-- C4: `should_work_today` decides from the entry matching today's
day-of-month, first match wins: a leave entry yields
`(False, "Leave day: {leave_name or Leave}")` regardless of
`is_laborable`; otherwise a non-laborable entry yields a reason naming
the day-of-week when the entry's date is present and a generic message
when it is not; otherwise `(True, "Working day")`; and with no matching
entry, `(True, "Working day (assumed)")`. -/
theorem c4_should_work_today_decision_order (st : ClientState)
    (today status : Nat) (days : List CalendarDay)
    (hlog : st.loggedIn = true) (hstatus : status < 400) :
    (should_work_today st today (.ok status days)).2 =
      .ok (decideWorkToday days today) ∧
    (days.find? (fun d => d.day == today) = none →
      decideWorkToday days today = (true, "Working day (assumed)")) ∧
    (∀ e, days.find? (fun d => d.day == today) = some e →
      (e.is_leave = true →
        decideWorkToday days today =
          (false, "Leave day: " ++ e.leave_name.getD "Leave")) ∧
      (e.is_leave = false → e.is_laborable = false →
        (∀ dt, e.date = some dt →
          decideWorkToday days today = (false, "Non-working day: " ++ dayName dt)) ∧
        (e.date = none →
          decideWorkToday days today =
            (false, "Non-working day (weekend or holiday)"))) ∧
      (e.is_leave = false → e.is_laborable = true →
        decideWorkToday days today = (true, "Working day"))) := by
  have h4 : ¬ status ≥ 400 := by omega
  refine ⟨by simp [should_work_today, hlog, h4], ?_, ?_⟩
  · intro hfind
    simp [decideWorkToday, hfind]
  · intro e hfind
    refine ⟨?_, ?_, ?_⟩
    · intro hl
      simp [decideWorkToday, hfind, hl]
    · intro hl hlab
      constructor
      · intro dt hdt
        simp [decideWorkToday, hfind, hl, hlab, hdt]
      · intro hdt
        simp [decideWorkToday, hfind, hl, hlab, hdt]
    · intro hl hlab
      simp [decideWorkToday, hfind, hl, hlab]

/-- C4 witness: a leave entry named `Vacation`, marked laborable, still
decides `(False, "Leave day: Vacation")`, and the full call carries that
decision. -/
theorem c4_should_work_today_decision_order_witness :
    (should_work_today { loggedIn := true, employee_id := some 7, period_id := some 42 }
        12 (.ok 200 [⟨12, true, some "Vacation", true, none⟩])).2 =
      .ok (decideWorkToday [⟨12, true, some "Vacation", true, none⟩] 12) ∧
    decideWorkToday [⟨12, true, some "Vacation", true, none⟩] 12 =
      (false, "Leave day: Vacation") := by
  refine ⟨(c4_should_work_today_decision_order _ 12 200 _ rfl (by decide)).1, ?_⟩
  have h :=
    ((c4_should_work_today_decision_order
        { loggedIn := true, employee_id := some 7, period_id := some 42 }
        12 200 [⟨12, true, some "Vacation", true, none⟩] rfl (by decide)).2.2
      ⟨12, true, some "Vacation", true, none⟩ (by decide)).1 rfl
  exact h.trans (by decide)

end ClockInTime
